import Mathlib

/-!
# Verification of the resample-and-repackage audio pipeline

Shallow embedding of the signal pipeline shared by the Doppler, drone and
voice blueprints of the backend (`src/Backend/blueprints/voice_aliasing.py`,
`drone.py`, `doppler.py`).

Modelling conventions:
* Audio samples are IEEE-754 doubles in the source; they are idealized here
  as real numbers with exact arithmetic.  Over `ℝ` there are no `NaN`/`Inf`
  values, so `np.nan_to_num` is the identity map of the model.
* Sample rates are natural numbers (the endpoints parse them with `int`).
* Python `int(x)` on a nonnegative float truncates toward zero, i.e. takes
  the floor; on nonnegative integer quotients this is natural division.
* `scipy.signal.resample` is an external library collaborator (not code of
  this repository).  The pipeline relies only on its documented guarantee
  that the output has exactly the requested number of samples, so theorems
  quantify over an arbitrary resampler satisfying that length contract.
* `np.ndarray.astype(np.int16)` truncates each float toward zero; the
  resulting C cast would wrap values outside `[-32768, 32767]`, but the
  pipeline's samples are clipped to `[-0.95, 0.95]` beforehand, so the
  truncated values (proved in range below) are the exact stored samples.
-/

namespace DSP

/-- A mono audio buffer: an ordered sequence of float samples. -/
abbrev Buffer := List ℝ

/-- A resampler: takes a buffer and a requested output length.
`scipy.signal.resample` is abstracted by the contract
`∀ b n, (R b n).length = n`. -/
abbrev Resampler := Buffer → ℕ → Buffer

/-- The length contract of `scipy.signal.resample`: the output has exactly
the requested number of samples. -/
def ResamplerSpec (R : Resampler) : Prop :=
  ∀ b n, (R b n).length = n

/-- Modelled from the spec: a stand-in for the external FFT-based resampler
(`scipy.signal.resample`), which is not code of this repository.  Only its
guarantee "output length is exactly `new_length`" is relied upon, so any
contract-satisfying function serves as a concrete instance for witnesses. -/
def modelResampler : Resampler := fun _ n => List.replicate n 0

theorem modelResampler_spec : ResamplerSpec modelResampler := by
  intro b n
  simp [modelResampler]

/-- The `mode` form field: `'playback'` or `'download'`. -/
inductive Mode where
  | playback
  | download
deriving DecidableEq

/-- The final encoded artifact: 16-bit PCM samples, the rate they were
encoded at, and whether upsampling occurred to reach that rate. -/
structure PlaybackPayload where
  pcm : List ℤ
  rate : ℕ
  wasUpsampled : Bool
deriving DecidableEq

/-- Computes `new_length = int(len(buffer) * (target_rate / original_rate))`
(voice_aliasing.py line 214, drone.py line 108, doppler.py line 317).
`int` truncates the nonnegative product toward zero, i.e. floors it,
which on naturals is natural division. -/
def newLength (len orig target : ℕ) : ℕ :=
  len * target / orig

/-- Resampling step of `VoiceAnalyzer.analyze_voice`
(voice_aliasing.py lines 46-54): the target rate is optional and is acted
on only when truthy (non-`None` and nonzero) and different from the
original rate. -/
def resampleForAnalysis (R : Resampler) (b : Buffer) (orig : ℕ)
    (target : Option ℕ) : Buffer × ℕ :=
  match target with
  | none => (b, orig)
  | some t =>
      if t ≠ 0 ∧ t ≠ orig then
        (R b (newLength b.length orig t), t)
      else
        (b, orig)

/-- Resampling step of `get_resampled_voice` (voice_aliasing.py lines
211-220) and `get_resampled_audio` (doppler.py lines 313-321), where the
target rate is required. -/
def resampleToTarget (R : Resampler) (b : Buffer) (orig t : ℕ) :
    Buffer × ℕ :=
  if t ≠ orig then
    (R b (newLength b.length orig t), t)
  else
    (b, orig)

/-- Embeds `resample_audio_for_analysis` (drone.py lines 99-117).  It computes
`new_length = int((len/orig) * target)`, equal to `int(len*target/orig)`
under exact arithmetic, and returns rate `target_sr` on both branches. -/
def droneResampleForAnalysis (R : Resampler) (b : Buffer) (orig t : ℕ) :
    Buffer × ℕ :=
  if t ≠ orig then
    (R b (newLength b.length orig t), t)
  else
    (b, t)

/-- The flag `is_aliasing` as computed by
`VoiceAnalyzer._generate_waveform_visualization` (voice_aliasing.py lines
83-101): an empty signal returns early with `is_aliasing = False`;
otherwise `is_aliasing = sample_rate < 8000`, overridden to `True` when a
truthy `target_sampling_rate` below 8000 was supplied. -/
def voiceIsAliasing (b : Buffer) (sampleRate : ℕ) (target : Option ℕ) :
    Bool :=
  if b.length = 0 then
    false
  else
    match target with
    | some t => if t ≠ 0 ∧ t < 8000 then true else decide (sampleRate < 8000)
    | none => decide (sampleRate < 8000)

/-- The rule `has_aliasing = sample_rate < 8000` in `generate_waveform_data`
(drone.py lines 192-193); it never inspects the buffer. -/
def droneIsAliasing (sampleRate : ℕ) : Bool :=
  decide (sampleRate < 8000)

/-- Embeds `np.clip(x, lo, hi)` applied to one sample. -/
noncomputable def hardClip (lo hi x : ℝ) : ℝ :=
  max lo (min hi x)

/-- Embeds `np.clip(buffer, lo, hi)`. -/
noncomputable def clipBuffer (lo hi : ℝ) (b : Buffer) : Buffer :=
  b.map (hardClip lo hi)

/-- Sum of squared samples. -/
def sumSq (b : Buffer) : ℝ :=
  (b.map fun x => x ^ 2).sum

/-- Embeds `rms = np.sqrt(np.mean(buffer**2))` (voice_aliasing.py line 247,
doppler.py line 341).  For the empty buffer `np.mean` yields `NaN` and the
guard `rms > 0` is false; in the model division by zero yields `0`, whose
square root is `0`, and the guard is false the same way. -/
noncomputable def rms (b : Buffer) : ℝ :=
  Real.sqrt (sumSq b / b.length)

/-- Embeds `if rms > 0: buffer = buffer * (0.3 / rms)` (voice_aliasing.py lines
248-250, doppler.py lines 342-344). -/
noncomputable def rmsNormalize (b : Buffer) : Buffer :=
  if 0 < rms b then b.map (fun x => x * (0.3 / rms b)) else b

/-- Embeds `soft_clip` (voice_aliasing.py lines 253-254, doppler.py lines
347-348) with its default threshold 0.8:
`np.where(|x| < 0.8, x, sign(x) * (0.8 + 0.2 * (1 - exp(-(|x| - 0.8)))))`. -/
noncomputable def softClip (x : ℝ) : ℝ :=
  if |x| < 0.8 then x
  else Real.sign x * (0.8 + 0.2 * (1 - Real.exp (-(|x| - 0.8))))

/-- Embeds `np.nan_to_num(buffer, nan=0.0, posinf=0.0, neginf=0.0)`
(voice_aliasing.py line 258, doppler.py line 352): replaces non-finite
values by `0.0`.  Real numbers are all finite, so the idealized map is the
identity. -/
def nanToNum (b : Buffer) : Buffer := b

/-- Embeds `(x * 32767).astype(np.int16)` on one sample: multiply and truncate the
float toward zero.  The int16 cast would further wrap values outside
`[-32768, 32767]`, but the samples reaching this step lie in
`[-0.95, 0.95]` (they were just clipped), so the truncated value proved in
range below is the stored sample. -/
noncomputable def quantizeSample (x : ℝ) : ℤ :=
  if 0 ≤ x * 32767 then ⌊x * 32767⌋ else ⌈x * 32767⌉

/-- Embeds `(buffer * 32767).astype(np.int16)`. -/
noncomputable def toPCM (b : Buffer) : List ℤ :=
  b.map quantizeSample

/-- The normalization sequence of `get_resampled_voice` (voice_aliasing.py
lines 243-258) and `get_resampled_audio` (doppler.py lines 337-352), as the
source writes it: hard clip to `[-1, 1]`, RMS-normalize to 0.3, soft clip,
hard clip to `[-0.95, 0.95]`, replace non-finite values. -/
noncomputable def normalizePlayback (b : Buffer) : Buffer :=
  let b1 := clipBuffer (-1) 1 b
  let b2 := rmsNormalize b1
  let b3 := b2.map softClip
  let b4 := clipBuffer (-0.95) 0.95 b3
  nanToNum b4

/-- The buffer the normalization sequence is applied to: in download mode
the analysis buffer unchanged; in playback mode the buffer upsampled to
`max(8000, rate)` when that exceeds the analysis rate (voice_aliasing.py
lines 222-241, doppler.py lines 323-335). -/
def stageBuffer (R : Resampler) (b : Buffer) (rate : ℕ) : Mode → Buffer
  | .download => b
  | .playback =>
      if max 8000 rate > rate then
        R b (newLength b.length rate (max 8000 rate))
      else
        b

/-- Embeds `get_resampled_voice` from the resampled analysis buffer on
(voice_aliasing.py lines 222-262): mode branch choosing the playback rate
and buffer, then normalization, then 16-bit quantization. -/
noncomputable def preparePlayback (R : Resampler) (b : Buffer) (rate : ℕ)
    (mode : Mode) : PlaybackPayload :=
  match mode with
  | .download =>
      { pcm := toPCM (normalizePlayback b)
        rate := rate
        wasUpsampled := false }
  | .playback =>
      let pr := max 8000 rate
      if pr > rate then
        { pcm := toPCM (normalizePlayback (R b (newLength b.length rate pr)))
          rate := pr
          wasUpsampled := true }
      else
        { pcm := toPCM (normalizePlayback b)
          rate := pr
          wasUpsampled := false }

/-- Embeds `np.max(np.abs(buffer))` for a nonempty buffer: fold of `max` over the
absolute values (all nonnegative, so the `0` seed is neutral). -/
noncomputable def peakAbs (b : Buffer) : ℝ :=
  (b.map fun x => |x|).foldr max 0

/-- First half of `create_playback_audio` (drone.py lines 124-144): hard
clip to `[-1, 1]`, then the mode branch choosing the playback buffer, the
playback rate and the upsampling flag. -/
noncomputable def droneStaged (R : Resampler) (b : Buffer) (rate : ℕ)
    (mode : Mode) : Buffer × ℕ × Bool :=
  let bn := clipBuffer (-1) 1 b
  match mode with
  | .playback =>
      if max 8000 rate > rate then
        (R bn (newLength bn.length rate (max 8000 rate)), max 8000 rate, true)
      else
        (bn, max 8000 rate, false)
  | .download => (bn, rate, false)

/-- Embeds `create_playback_audio` (drone.py lines 119-152): the staged buffer,
then peak-based attenuation and 16-bit quantization.  `np.max` on the
zero-size array raises `ValueError`, so the empty staged buffer maps to
`none`. -/
noncomputable def dronePreparePlayback (R : Resampler) (b : Buffer)
    (rate : ℕ) (mode : Mode) : Option PlaybackPayload :=
  let staged := droneStaged R b rate mode
  if staged.1.length = 0 then
    none
  else
    let peak := peakAbs staged.1
    let bp := if 0.9 < peak then staged.1.map (fun x => x * (0.9 / peak))
              else staged.1
    some { pcm := toPCM bp
           rate := staged.2.1
           wasUpsampled := staged.2.2 }

/-!
## Spec-side definitions

The following definitions transcribe the SPEC's wording of the
normalization sequence (§4, steps 1-6), to be compared with the pipeline
embedded from the source.  They exist solely for that comparison.
-/

/-- Step 6 as the spec words it: `round(sample * 32767)`, clamped to the
representable 16-bit range. -/
noncomputable def specQuantizeRound (x : ℝ) : ℤ :=
  max (-32768) (min 32767 (round (x * 32767)))

/-- The spec's normalization sequence as stated (steps 1-6 in order, with
step 6 rounding and clamping). -/
noncomputable def specNormalizeRound (b : Buffer) : List ℤ :=
  (nanToNum (clipBuffer (-0.95) 0.95
    ((rmsNormalize (clipBuffer (-1) 1 b)).map softClip))).map specQuantizeRound

/-- The spec's normalization sequence with step 6 amended to the
truncation toward zero actually performed by `astype(np.int16)`. -/
noncomputable def specNormalizeTrunc (b : Buffer) : List ℤ :=
  (nanToNum (clipBuffer (-0.95) 0.95
    ((rmsNormalize (clipBuffer (-1) 1 b)).map softClip))).map quantizeSample

/-!
## Helper lemmas
-/

@[simp]
theorem clipBuffer_length (lo hi : ℝ) (b : Buffer) :
    (clipBuffer lo hi b).length = b.length := by
  simp [clipBuffer]

@[simp]
theorem rmsNormalize_length (b : Buffer) :
    (rmsNormalize b).length = b.length := by
  unfold rmsNormalize
  split <;> simp

@[simp]
theorem nanToNum_length (b : Buffer) : (nanToNum b).length = b.length := rfl

@[simp]
theorem toPCM_length (b : Buffer) : (toPCM b).length = b.length := by
  simp [toPCM]

@[simp]
theorem normalizePlayback_length (b : Buffer) :
    (normalizePlayback b).length = b.length := by
  simp [normalizePlayback, nanToNum]

theorem preparePlayback_pcm_eq (R : Resampler) (b : Buffer) (rate : ℕ)
    (mode : Mode) :
    (preparePlayback R b rate mode).pcm
      = toPCM (normalizePlayback (stageBuffer R b rate mode)) := by
  cases mode
  · simp only [preparePlayback, stageBuffer]
    split <;> rfl
  · rfl

/-- Any defined result of the drone playback builder carries the staged
rate and flag, and as many PCM samples as the staged buffer. -/
theorem dronePreparePlayback_some (R : Resampler) (b : Buffer) (rate : ℕ)
    (mode : Mode) (p : PlaybackPayload)
    (hp : dronePreparePlayback R b rate mode = some p) :
    p.rate = (droneStaged R b rate mode).2.1
    ∧ p.wasUpsampled = (droneStaged R b rate mode).2.2
    ∧ p.pcm.length = (droneStaged R b rate mode).1.length := by
  simp only [dronePreparePlayback] at hp
  split at hp
  · exact absurd hp (by simp)
  · rw [Option.some_inj] at hp
    subst hp
    refine ⟨rfl, rfl, ?_⟩
    simp only [toPCM_length]
    split <;> simp

theorem droneStaged_playback_meta (R : Resampler) (b : Buffer) (r : ℕ) :
    (droneStaged R b r Mode.playback).2
      = (max 8000 r, decide (max 8000 r > r)) := by
  by_cases h : max 8000 r > r <;> simp [droneStaged, h]

theorem droneStaged_download_meta (R : Resampler) (b : Buffer) (r : ℕ) :
    (droneStaged R b r Mode.download).2 = (r, false) := rfl

theorem stageBuffer_length_of_spec (R : Resampler) (hR : ResamplerSpec R)
    (b : Buffer) (rate : ℕ) (mode : Mode) :
    (stageBuffer R b rate mode).length
      = match mode with
        | .download => b.length
        | .playback =>
            if max 8000 rate > rate then
              newLength b.length rate (max 8000 rate)
            else b.length := by
  cases mode
  · simp only [stageBuffer]
    split
    · exact hR _ _
    · rfl
  · rfl

/-!
## Claims
-/

/-- C9: for every buffer `b` and rate `r > 0`, resampling with a target
equal to the original rate, or with no target at all, returns the buffer
unchanged at rate `r`; this holds for the voice analyzer's optional-target
resampler and for the drone analysis resampler. -/
theorem resample_identity (R : Resampler) (b : Buffer) (r : ℕ)
    (hr : 0 < r) :
    resampleForAnalysis R b r (some r) = (b, r)
    ∧ resampleForAnalysis R b r none = (b, r)
    ∧ droneResampleForAnalysis R b r r = (b, r) := by
  refine ⟨?_, rfl, ?_⟩ <;>
    simp [resampleForAnalysis, droneResampleForAnalysis]

/-- C9 witness: concrete instance at `b = [1, 0]`, `r = 44100`. -/
theorem resample_identity_witness :
    0 < 44100
    ∧ (resampleForAnalysis modelResampler [1, 0] 44100 (some 44100)
        = ([1, 0], 44100)
      ∧ resampleForAnalysis modelResampler [1, 0] 44100 none
        = ([1, 0], 44100)
      ∧ droneResampleForAnalysis modelResampler [1, 0] 44100 44100
        = ([1, 0], 44100)) :=
  ⟨by norm_num,
   resample_identity modelResampler [1, 0] 44100 (by norm_num)⟩

/-- C1 (amended): for any resampler meeting the length contract, rates
`r, t > 0` with `t ≠ r`, the analysis output length is
`len(b) * t / r` truncated toward zero (Python `int`), not rounded to
nearest. -/
theorem resample_length_is_truncated (R : Resampler)
    (hR : ResamplerSpec R) (b : Buffer) (r t : ℕ)
    (hr : 0 < r) (ht : 0 < t) (hne : t ≠ r) :
    (resampleToTarget R b r t).1.length = b.length * t / r
    ∧ (droneResampleForAnalysis R b r t).1.length = b.length * t / r := by
  constructor <;>
    simp [resampleToTarget, droneResampleForAnalysis, hne, hR _ _, newLength]

/-- C1 witness: buffer of 3 samples, 2 Hz → 5 Hz. -/
theorem resample_length_is_truncated_witness :
    ResamplerSpec modelResampler ∧ 0 < 2 ∧ 0 < 5 ∧ 5 ≠ 2
    ∧ ((resampleToTarget modelResampler [0, 0, 0] 2 5).1.length
        = [(0 : ℝ), 0, 0].length * 5 / 2
      ∧ (droneResampleForAnalysis modelResampler [0, 0, 0] 2 5).1.length
        = [(0 : ℝ), 0, 0].length * 5 / 2) :=
  ⟨modelResampler_spec, by norm_num, by norm_num, by norm_num,
   resample_length_is_truncated modelResampler modelResampler_spec
     [0, 0, 0] 2 5 (by norm_num) (by norm_num) (by norm_num)⟩

/-- C1 counterexample: a 3-sample buffer resampled from 2 Hz to 5 Hz gets
`int(3 * 5 / 2) = 7` output samples, whereas the claimed
`round(3 * 5 / 2) = round(7.5) = 8`. -/
theorem resample_length_round_counterexample :
    (resampleToTarget modelResampler [0, 0, 0] 2 5).1.length = 7
    ∧ round ((3 * 5 : ℚ) / 2) = 8 := by
  constructor
  · simp [resampleToTarget, modelResampler, newLength]
  · norm_num [round_eq]

/-- C2: for positive rates and either mode, the empty buffer yields empty
analysis buffers (all three resampling entry points) and an empty playback
PCM sequence; every operation is total in the model, so no exception
arises. -/
theorem empty_input_empty_output (R : Resampler) (hR : ResamplerSpec R)
    (orig t : ℕ) (mode : Mode) (ho : 0 < orig) (ht : 0 < t) :
    (resampleForAnalysis R [] orig (some t)).1 = []
    ∧ (resampleForAnalysis R [] orig none).1 = []
    ∧ (resampleToTarget R [] orig t).1 = []
    ∧ (droneResampleForAnalysis R [] orig t).1 = []
    ∧ (preparePlayback R [] t mode).pcm = [] := by
  have hzero : ∀ target, newLength (List.length ([] : Buffer)) orig target = 0 := by
    intro target
    simp [newLength]
  have hnil : ∀ target, R [] (newLength (List.length ([] : Buffer)) orig target) = [] := by
    intro target
    rw [← List.length_eq_zero, hR _ _, hzero]
  refine ⟨?_, rfl, ?_, ?_, ?_⟩
  · show (if t ≠ 0 ∧ t ≠ orig
        then (R [] (newLength (List.length ([] : Buffer)) orig t), t)
        else (([] : Buffer), orig)).1 = []
    split
    · exact hnil t
    · rfl
  · show (if t ≠ orig
        then (R [] (newLength (List.length ([] : Buffer)) orig t), t)
        else (([] : Buffer), orig)).1 = []
    split
    · exact hnil t
    · rfl
  · show (if t ≠ orig
        then (R [] (newLength (List.length ([] : Buffer)) orig t), t)
        else (([] : Buffer), t)).1 = []
    split
    · exact hnil t
    · rfl
  · rw [← List.length_eq_zero, preparePlayback_pcm_eq, toPCM_length,
      normalizePlayback_length, stageBuffer_length_of_spec R hR]
    cases mode
    · simp [newLength]
    · rfl

/-- C2 witness: rates 2 and 5, playback mode. -/
theorem empty_input_empty_output_witness :
    ResamplerSpec modelResampler ∧ 0 < 2 ∧ 0 < 5
    ∧ ((resampleForAnalysis modelResampler [] 2 (some 5)).1 = []
      ∧ (resampleForAnalysis modelResampler [] 2 none).1 = []
      ∧ (resampleToTarget modelResampler [] 2 5).1 = []
      ∧ (droneResampleForAnalysis modelResampler [] 2 5).1 = []
      ∧ (preparePlayback modelResampler [] 5 Mode.playback).pcm = []) :=
  ⟨modelResampler_spec, by norm_num, by norm_num,
   empty_input_empty_output modelResampler modelResampler_spec 2 5
     Mode.playback (by norm_num) (by norm_num)⟩

/-- C5: in playback mode the output rate is `max(8000, r)` and the
upsampling flag holds exactly when that rate exceeds `r`; this holds for
the voice/doppler pipeline and for every defined result of the drone
pipeline. -/
theorem playback_rate_rule (R : Resampler) (b : Buffer) (r : ℕ)
    (hr : 0 < r) :
    (preparePlayback R b r Mode.playback).rate = max 8000 r
    ∧ ((preparePlayback R b r Mode.playback).wasUpsampled = true
        ↔ max 8000 r > r)
    ∧ (∀ p, dronePreparePlayback R b r Mode.playback = some p →
        p.rate = max 8000 r
        ∧ (p.wasUpsampled = true ↔ max 8000 r > r)) := by
  refine ⟨?_, ?_, ?_⟩
  · by_cases h : max 8000 r > r <;> simp [preparePlayback, h]
  · by_cases h : max 8000 r > r <;> simp [preparePlayback, h]
  · intro p hp
    obtain ⟨h1, h2, -⟩ := dronePreparePlayback_some R b r Mode.playback p hp
    rw [droneStaged_playback_meta] at h1 h2
    exact ⟨h1, by simp [h2]⟩

/-- C5 witness: one sample at 4000 Hz, playback mode. -/
theorem playback_rate_rule_witness :
    0 < 4000
    ∧ ((preparePlayback modelResampler [0] 4000 Mode.playback).rate
        = max 8000 4000
      ∧ ((preparePlayback modelResampler [0] 4000 Mode.playback).wasUpsampled
          = true ↔ max 8000 4000 > 4000)
      ∧ (∀ p, dronePreparePlayback modelResampler [0] 4000 Mode.playback
          = some p →
          p.rate = max 8000 4000
          ∧ (p.wasUpsampled = true ↔ max 8000 4000 > 4000))) :=
  ⟨by norm_num, playback_rate_rule modelResampler [0] 4000 (by norm_num)⟩

/-- C6: in download mode the output rate equals the analysis rate and the
upsampling flag is false, for the voice/doppler pipeline and for every
defined result of the drone pipeline. -/
theorem download_rate_rule (R : Resampler) (b : Buffer) (r : ℕ)
    (hr : 0 < r) :
    (preparePlayback R b r Mode.download).rate = r
    ∧ (preparePlayback R b r Mode.download).wasUpsampled = false
    ∧ (∀ p, dronePreparePlayback R b r Mode.download = some p →
        p.rate = r ∧ p.wasUpsampled = false) := by
  refine ⟨rfl, rfl, ?_⟩
  intro p hp
  obtain ⟨h1, h2, -⟩ := dronePreparePlayback_some R b r Mode.download p hp
  rw [droneStaged_download_meta] at h1 h2
  exact ⟨h1, h2⟩

/-- C6 witness: one sample at 4000 Hz, download mode. -/
theorem download_rate_rule_witness :
    0 < 4000
    ∧ ((preparePlayback modelResampler [0] 4000 Mode.download).rate = 4000
      ∧ (preparePlayback modelResampler [0] 4000 Mode.download).wasUpsampled
          = false
      ∧ (∀ p, dronePreparePlayback modelResampler [0] 4000 Mode.download
          = some p → p.rate = 4000 ∧ p.wasUpsampled = false)) :=
  ⟨by norm_num, download_rate_rule modelResampler [0] 4000 (by norm_num)⟩

/-- C10: the normalization/quantization chain is elementwise, so whenever
no resampling happens in the playback stage (download mode always;
playback mode when the rate is already ≥ 8000), the PCM output has exactly
as many samples as the input buffer — for the voice/doppler pipeline and
for every defined result of the drone pipeline. -/
theorem pcm_length_preserved (R : Resampler) (b : Buffer) (r : ℕ)
    (hr : 0 < r) :
    (preparePlayback R b r Mode.download).pcm.length = b.length
    ∧ (8000 ≤ r →
        (preparePlayback R b r Mode.playback).pcm.length = b.length)
    ∧ (∀ p, dronePreparePlayback R b r Mode.download = some p →
        p.pcm.length = b.length)
    ∧ (8000 ≤ r →
        ∀ p, dronePreparePlayback R b r Mode.playback = some p →
          p.pcm.length = b.length) := by
  have hmax : 8000 ≤ r → ¬(max 8000 r > r) := fun h => by
    simp [max_eq_right h]
  refine ⟨?_, ?_, ?_, ?_⟩
  · rw [preparePlayback_pcm_eq, toPCM_length, normalizePlayback_length]
    rfl
  · intro h8
    rw [preparePlayback_pcm_eq, toPCM_length, normalizePlayback_length]
    simp [stageBuffer, hmax h8]
  · intro p hp
    obtain ⟨-, -, hlen⟩ := dronePreparePlayback_some R b r Mode.download p hp
    rw [hlen]
    simp [droneStaged]
  · intro h8 p hp
    obtain ⟨-, -, hlen⟩ := dronePreparePlayback_some R b r Mode.playback p hp
    rw [hlen]
    simp [droneStaged, hmax h8]

/-- C10 witness: one sample at 8000 Hz (no upsampling in either mode). -/
theorem pcm_length_preserved_witness :
    0 < 8000
    ∧ ((preparePlayback modelResampler [0] 8000 Mode.download).pcm.length
        = [(0 : ℝ)].length
      ∧ (8000 ≤ 8000 →
          (preparePlayback modelResampler [0] 8000 Mode.playback).pcm.length
            = [(0 : ℝ)].length)
      ∧ (∀ p, dronePreparePlayback modelResampler [0] 8000 Mode.download
            = some p → p.pcm.length = [(0 : ℝ)].length)
      ∧ (8000 ≤ 8000 →
          ∀ p, dronePreparePlayback modelResampler [0] 8000 Mode.playback
            = some p → p.pcm.length = [(0 : ℝ)].length)) :=
  ⟨by norm_num, pcm_length_preserved modelResampler [0] 8000 (by norm_num)⟩

/-- C3 (amended): for every rate `r > 0` and a target consistent with the
analysis flow (absent, zero, or equal to `r`), a NON-EMPTY buffer's
aliasing flag is exactly `r < 8000`, and the drone flag is `r < 8000` for
every buffer; but the voice analyzer reports `is_aliasing = false` for the
empty buffer regardless of the rate. -/
theorem aliasing_rate_rule (r : ℕ) (b : Buffer) (target : Option ℕ)
    (hr : 0 < r) (ht : ∀ t, target = some t → 0 < t → t = r)
    (hb : b ≠ []) :
    voiceIsAliasing b r target = decide (r < 8000)
    ∧ voiceIsAliasing [] r target = false
    ∧ droneIsAliasing r = decide (r < 8000) := by
  have hlen : ¬b.length = 0 := by
    simpa [List.length_eq_zero] using hb
  refine ⟨?_, by simp [voiceIsAliasing], rfl⟩
  cases target with
  | none => simp [voiceIsAliasing, hlen]
  | some t =>
      by_cases h0 : t = 0
      · simp [voiceIsAliasing, hlen, h0]
      · have htr : t = r := ht t rfl (Nat.pos_of_ne_zero h0)
        subst htr
        by_cases h8 : t < 8000
        · simp [voiceIsAliasing, hlen, h0, h8]
        · simp [voiceIsAliasing, hlen, h8]

/-- C3 witness: a one-sample buffer at 4000 Hz with no target. -/
theorem aliasing_rate_rule_witness :
    0 < 4000
    ∧ ([(0 : ℝ)] ≠ [])
    ∧ (voiceIsAliasing [0] 4000 none = decide (4000 < 8000)
      ∧ voiceIsAliasing [] 4000 none = false
      ∧ droneIsAliasing 4000 = decide (4000 < 8000)) :=
  ⟨by norm_num, by simp,
   aliasing_rate_rule 4000 [0] none (by norm_num)
     (fun t h => by cases h) (by simp)⟩

/-- C3 counterexample: at 4000 Hz (< 8000) the voice analyzer's aliasing
flag for the EMPTY buffer is `false`, contradicting the claimed rate-only
rule. -/
theorem aliasing_empty_buffer_counterexample :
    voiceIsAliasing [] 4000 none = false ∧ 4000 < 8000 :=
  ⟨rfl, by norm_num⟩

/-!
### Soft clip analysis
-/

theorem softClip_id_of_lt (x : ℝ) (h0 : 0 ≤ x) (h : x < 0.8) :
    softClip x = x := by
  rw [softClip, if_pos]
  rwa [abs_of_nonneg h0]

theorem softClip_formula_of_ge (x : ℝ) (h : 0.8 ≤ x) :
    softClip x = 0.8 + 0.2 * (1 - Real.exp (-(x - 0.8))) := by
  have hx : (0 : ℝ) < x := by linarith
  have habs : |x| = x := abs_of_pos hx
  rw [softClip, habs, if_neg (not_lt.mpr h), Real.sign_of_pos hx, one_mul]

theorem softClip_ge_of_ge (x : ℝ) (h : 0.8 ≤ x) : 0.8 ≤ softClip x := by
  rw [softClip_formula_of_ge x h]
  have h1 : Real.exp (-(x - 0.8)) ≤ Real.exp 0 :=
    Real.exp_le_exp.mpr (by linarith)
  rw [Real.exp_zero] at h1
  linarith

/-- C8: the soft-clip function is exactly 0.8 at the knee and is
monotonically non-decreasing on the non-negative reals. -/
theorem softClip_knee_monotone :
    softClip 0.8 = 0.8
    ∧ ∀ x y : ℝ, 0 ≤ x → x ≤ y → softClip x ≤ softClip y := by
  constructor
  · rw [softClip_formula_of_ge 0.8 le_rfl]
    norm_num
  · intro x y hx hxy
    by_cases cx : x < 0.8
    · rw [softClip_id_of_lt x hx cx]
      by_cases cy : y < 0.8
      · rw [softClip_id_of_lt y (le_trans hx hxy) cy]
        exact hxy
      · have := softClip_ge_of_ge y (not_lt.mp cy)
        linarith
    · have hx8 : (0.8 : ℝ) ≤ x := not_lt.mp cx
      have hy8 : (0.8 : ℝ) ≤ y := le_trans hx8 hxy
      rw [softClip_formula_of_ge x hx8, softClip_formula_of_ge y hy8]
      have := Real.exp_le_exp.mpr (show -(y - 0.8) ≤ -(x - 0.8) by linarith)
      linarith

/-- C8 witness: monotonicity applied at `x = 0`, `y = 1`. -/
theorem softClip_knee_monotone_witness :
    (0 : ℝ) ≤ 0 ∧ (0 : ℝ) ≤ 1 ∧ softClip 0 ≤ softClip 1 :=
  ⟨le_rfl, by norm_num, softClip_knee_monotone.2 0 1 le_rfl (by norm_num)⟩

/-!
### Clipping and quantization bounds
-/

theorem hardClip_id (lo hi x : ℝ) (h1 : lo ≤ x) (h2 : x ≤ hi) :
    hardClip lo hi x = x := by
  unfold hardClip
  rw [min_eq_right h2, max_eq_right h1]

theorem hardClip_bounds (lo hi x : ℝ) (h : lo ≤ hi) :
    lo ≤ hardClip lo hi x ∧ hardClip lo hi x ≤ hi := by
  unfold hardClip
  exact ⟨le_max_left lo _, max_le h (min_le_left hi x)⟩

theorem quantizeSample_zero : quantizeSample 0 = 0 := by
  rw [quantizeSample, if_pos (by norm_num)]
  norm_num

theorem quantizeSample_bounds (x : ℝ) (hlo : -0.95 ≤ x) (hhi : x ≤ 0.95) :
    -32768 ≤ quantizeSample x ∧ quantizeSample x ≤ 32767 := by
  have hv1 : x * 32767 ≤ 32767 * 0.95 := by nlinarith
  have hv2 : -(32767 * 0.95) ≤ x * 32767 := by nlinarith
  unfold quantizeSample
  split
  next h =>
    constructor
    · have h0 : (0 : ℤ) ≤ ⌊x * 32767⌋ := Int.floor_nonneg.mpr h
      omega
    · have hle : (⌊x * 32767⌋ : ℝ) < ((32768 : ℤ) : ℝ) := by
        push_cast
        linarith [Int.floor_le (x * 32767)]
      have := Int.cast_lt.mp hle
      omega
  next h =>
    constructor
    · have hge : ((-32768 : ℤ) : ℝ) ≤ (⌈x * 32767⌉ : ℝ) := by
        push_cast
        linarith [Int.le_ceil (x * 32767)]
      exact Int.cast_le.mp hge
    · have h0 : ⌈x * 32767⌉ ≤ 0 := Int.ceil_le.mpr (by
        push_cast
        linarith [le_of_not_le h])
      omega

/-- C7: every sample of the quantized PCM output lies in the signed 16-bit
range `[-32768, 32767]` (each sample is an integer of the model, hence
finite), for every input buffer, rate, mode and resampler. -/
theorem pcm_within_int16_range (R : Resampler) (b : Buffer) (r : ℕ)
    (m : Mode) :
    ∀ s ∈ (preparePlayback R b r m).pcm, -32768 ≤ s ∧ s ≤ 32767 := by
  intro s hs
  rw [preparePlayback_pcm_eq] at hs
  simp only [toPCM, normalizePlayback, nanToNum, clipBuffer, List.mem_map]
    at hs
  obtain ⟨x, hx, rfl⟩ := hs
  obtain ⟨y, hy, rfl⟩ := hx
  exact quantizeSample_bounds _
    (hardClip_bounds (-0.95) 0.95 y (by norm_num)).1
    (hardClip_bounds (-0.95) 0.95 y (by norm_num)).2

/-!
### Concrete evaluation of the pipeline on small buffers
-/

theorem normalizePlayback_single_zero : normalizePlayback [0] = [0] := by
  have h1 : clipBuffer (-1) 1 [(0 : ℝ)] = [0] := by
    simp [clipBuffer, hardClip_id (-1) 1 0 (by norm_num) (by norm_num)]
  have hrms0 : rms [(0 : ℝ)] = 0 := by
    simp [rms, sumSq]
  have h2 : rmsNormalize [(0 : ℝ)] = [0] := by
    rw [rmsNormalize, hrms0]
    simp
  have h3 : List.map softClip [(0 : ℝ)] = [0] := by
    simp [softClip_id_of_lt 0 le_rfl (by norm_num)]
  have h4 : clipBuffer (-0.95) 0.95 [(0 : ℝ)] = [0] := by
    simp [clipBuffer, hardClip_id (-0.95) 0.95 0 (by norm_num) (by norm_num)]
  simp only [normalizePlayback, nanToNum]
  rw [h1, h2, h3, h4]

theorem pcm_single_zero :
    (preparePlayback modelResampler [0] 8000 Mode.download).pcm = [0] := by
  rw [preparePlayback_pcm_eq]
  show toPCM (normalizePlayback [0]) = [0]
  rw [normalizePlayback_single_zero]
  simp [toPCM, quantizeSample_zero]

/-- C7 witness: the sample `0` of the PCM output for buffer `[0]`. -/
theorem pcm_within_int16_range_witness :
    (0 : ℤ) ∈ (preparePlayback modelResampler [0] 8000 Mode.download).pcm
    ∧ (-32768 ≤ (0 : ℤ) ∧ (0 : ℤ) ≤ 32767) :=
  ⟨by rw [pcm_single_zero]; exact List.mem_singleton.mpr rfl,
   pcm_within_int16_range modelResampler [0] 8000 Mode.download 0
     (by rw [pcm_single_zero]; exact List.mem_singleton.mpr rfl)⟩

/-- C4 (amended): the pipeline applies, to the possibly-upsampled buffer
and in both modes, exactly: hard clip to `[-1, 1]`; RMS scaling to 0.3
when RMS > 0; soft clip with threshold 0.8; hard clip to `[-0.95, 0.95]`;
non-finite replacement; then 16-bit quantization by TRUNCATION toward zero
of `sample * 32767` (the `astype(np.int16)` cast), not by rounding. -/
theorem normalization_sequence_trunc (R : Resampler) (b : Buffer) (r : ℕ)
    (m : Mode) :
    (preparePlayback R b r m).pcm
      = specNormalizeTrunc (stageBuffer R b r m) := by
  rw [preparePlayback_pcm_eq]
  rfl

/-- C4 counterexample: on the buffer `[17/26, 7/26]` (RMS exactly `1/2`,
scaled samples `51/130` and `21/130`) the pipeline emits the truncated
sample `⌊51/130 * 32767⌋ = 12854`, whereas the claimed round-based
quantization emits `12855`. -/
theorem quantization_round_counterexample :
    (preparePlayback modelResampler [17/26, 7/26] 8000 Mode.download).pcm
      = [12854, 5293]
    ∧ specNormalizeRound [17/26, 7/26] = [12855, 5293] := by
  have h1 : clipBuffer (-1) 1 [(17/26 : ℝ), 7/26] = [17/26, 7/26] := by
    simp [clipBuffer, hardClip_id (-1) 1 (17/26 : ℝ) (by norm_num) (by norm_num),
      hardClip_id (-1) 1 (7/26 : ℝ) (by norm_num) (by norm_num)]
  have hmean : sumSq [(17/26 : ℝ), 7/26]
      / (List.length [(17/26 : ℝ), 7/26] : ℝ) = 1/4 := by
    simp [sumSq]
    norm_num
  have hrms : rms [(17/26 : ℝ), 7/26] = 1/2 := by
    rw [rms, hmean, show (1/4 : ℝ) = (1/2)^2 by norm_num,
      Real.sqrt_sq (by norm_num)]
  have hnormed : rmsNormalize [(17/26 : ℝ), 7/26] = [51/130, 21/130] := by
    rw [rmsNormalize, hrms, if_pos (by norm_num)]
    simp only [List.map_cons, List.map_nil, List.cons.injEq, and_true]
    norm_num
  have hsoft : List.map softClip [(51/130 : ℝ), 21/130]
      = [51/130, 21/130] := by
    simp only [List.map_cons, List.map_nil,
      softClip_id_of_lt (51/130 : ℝ) (by norm_num) (by norm_num),
      softClip_id_of_lt (21/130 : ℝ) (by norm_num) (by norm_num)]
  have h2 : clipBuffer (-0.95) 0.95 [(51/130 : ℝ), 21/130]
      = [51/130, 21/130] := by
    simp [clipBuffer,
      hardClip_id (-0.95) 0.95 (51/130 : ℝ) (by norm_num) (by norm_num),
      hardClip_id (-0.95) 0.95 (21/130 : ℝ) (by norm_num) (by norm_num)]
  have hq1 : quantizeSample (51/130 : ℝ) = 12854 := by
    rw [quantizeSample, if_pos (by norm_num),
      show (51/130 : ℝ) * 32767 = 1671117/130 by norm_num,
      Int.floor_eq_iff]
    norm_num
  have hq2 : quantizeSample (21/130 : ℝ) = 5293 := by
    rw [quantizeSample, if_pos (by norm_num),
      show (21/130 : ℝ) * 32767 = 688107/130 by norm_num,
      Int.floor_eq_iff]
    norm_num
  have hr1 : specQuantizeRound (51/130 : ℝ) = 12855 := by
    rw [specQuantizeRound,
      show (51/130 : ℝ) * 32767 = 1671117/130 by norm_num]
    have hround : round ((1671117 : ℝ)/130) = 12855 := by
      rw [round_eq, show (1671117 : ℝ)/130 + 1/2 = 1671182/130 by norm_num,
        Int.floor_eq_iff]
      norm_num
    rw [hround]
    norm_num [min_def, max_def]
  have hr2 : specQuantizeRound (21/130 : ℝ) = 5293 := by
    rw [specQuantizeRound,
      show (21/130 : ℝ) * 32767 = 688107/130 by norm_num]
    have hround : round ((688107 : ℝ)/130) = 5293 := by
      rw [round_eq, show (688107 : ℝ)/130 + 1/2 = 688172/130 by norm_num,
        Int.floor_eq_iff]
      norm_num
    rw [hround]
    norm_num [min_def, max_def]
  constructor
  · rw [preparePlayback_pcm_eq]
    show toPCM (normalizePlayback [(17/26 : ℝ), 7/26]) = [12854, 5293]
    simp only [toPCM, normalizePlayback, nanToNum]
    rw [h1, hnormed, hsoft, h2]
    simp only [List.map_cons, List.map_nil, hq1, hq2]
  · simp only [specNormalizeRound, nanToNum]
    rw [h1, hnormed, hsoft, h2]
    simp only [List.map_cons, List.map_nil, hr1, hr2]

end DSP
